import Mathlib

/-!
# Verification of Slate's `AnimationSystem` (src/lib/animationsystem.cpp)

A shallow embedding of the animation-collection manager: an ordered
sequence of animations, a current-index selector, a playback cursor bound
to the current animation, and a name-generation counter.  Each public
operation of `AnimationSystem` is translated into a pure function from a
state to a new state together with the list of Qt signals it emits, in
emission order.
-/

set_option autoImplicit false

/-- The fields of an `Animation` object that `AnimationSystem` touches
(`name`, `fps`, frame geometry).  `AnimationSystem` stores
`QVector<Animation*>`; we model animations by value. -/
structure Animation where
  name : String
  fps : Int
  frameCount : Int
  frameX : Int
  frameY : Int
  frameWidth : Int
  frameHeight : Int
deriving DecidableEq, Repr

/-- The Qt signals `AnimationSystem` emits, with their `int` payloads. -/
inductive Event where
  | preAnimationAdded (index : Int)
  | postAnimationAdded (index : Int)
  | preAnimationRemoved (index : Int)
  | postAnimationRemoved (index : Int)
  | animationCountChanged
  | currentAnimationIndexChanged
deriving DecidableEq, Repr

/-- The state of an `AnimationSystem`:
* `animations` models `mAnimations : QVector<Animation*>`;
* `currentAnimationIndex` models `mCurrentAnimationIndex : int`;
* `playback` models the animation currently bound to
  `mCurrentAnimationPlayback` (`none` = null pointer);
* `animationsCreated` models `mAnimationsCreated : int`. -/
structure AnimationSystem where
  animations : List Animation
  currentAnimationIndex : Int
  playback : Option Animation
  animationsCreated : Nat
deriving DecidableEq, Repr

/-- Modelled from the spec: the member initialisers live in
`animationsystem.h`, which is not in `src/`.  The spec states that `-1`
means "no current animation" and that the playback cursor starts unbound
with the counter at zero, so a fresh `AnimationSystem` has an empty
sequence, current index `-1`, no bound playback animation, and
`createdCount = 0`. -/
def initialSystem : AnimationSystem :=
  { animations := [], currentAnimationIndex := -1, playback := none,
    animationsCreated := 0 }

/-- `AnimationSystem::isValidIndexOrWarn`: rejects `index < 0` and
`index > mAnimations.size()` (note: `index == size()` is accepted). -/
def isValidIndexOrWarn (s : AnimationSystem) (index : Int) : Bool :=
  if index < 0 ∨ index > (s.animations.length : Int) then false else true

/-- `AnimationSystem::currentAnimation`: null if the current index is `-1`,
otherwise `mAnimations.at(mCurrentAnimationIndex)`.  `QVector::at` out of
range is an assertion failure; `List.get?` returns `none` there, and the
flows below only read it at an in-range index or at `-1`. -/
def currentAnimation (s : AnimationSystem) : Option Animation :=
  if s.currentAnimationIndex = -1 then none
  else s.animations.get? s.currentAnimationIndex.toNat

/-- `AnimationSystem::setCurrentAnimationIndex`: validates the index,
returns early if it equals the current one, otherwise stores it, rebinds
the playback cursor to `currentAnimation()`, and emits
`currentAnimationIndexChanged`. -/
def setCurrentAnimationIndex (s : AnimationSystem) (index : Int) :
    AnimationSystem × List Event :=
  if ¬ isValidIndexOrWarn s index then (s, [])
  else if index = s.currentAnimationIndex then (s, [])
  else
    let s1 : AnimationSystem := { s with currentAnimationIndex := index }
    let s2 : AnimationSystem := { s1 with playback := currentAnimation s1 }
    (s2, [Event.currentAnimationIndexChanged])

/-- `AnimationSystem::peekNextGeneratedName`:
`QString::fromLatin1("Animation %1").arg(mAnimationsCreated + 1)`. -/
def peekNextGeneratedName (s : AnimationSystem) : String :=
  "Animation " ++ toString (s.animationsCreated + 1)

/-- `AnimationSystem::addNewAnimation(canvasSize)`: refuses if the next
generated name is taken, otherwise emits `preAnimationAdded(size()-1)`,
increments the counter, appends a new animation (fps 4, frameCount 4 when
the canvas is at least 8 wide else 1, frame width `width / frameCount`
with C++ truncating division, frame height the canvas height), selects
index 0 when the collection became a singleton, and emits
`postAnimationAdded` with the same payload.  Returns the new name
(`""` models the null `QString()` returned on refusal). -/
def addNewAnimation (s : AnimationSystem) (canvasWidth canvasHeight : Int) :
    AnimationSystem × List Event × String :=
  let name := peekNextGeneratedName s
  if s.animations.any fun a => a.name == name then (s, [], "")
  else
    let addIndex : Int := (s.animations.length : Int) - 1
    let s1 : AnimationSystem :=
      { s with animationsCreated := s.animationsCreated + 1 }
    let frameCount : Int := if canvasWidth ≥ 8 then 4 else 1
    let animation : Animation :=
      { name := name, fps := 4, frameCount := frameCount, frameX := 0,
        frameY := 0, frameWidth := Int.tdiv canvasWidth frameCount,
        frameHeight := canvasHeight }
    let s2 : AnimationSystem := { s1 with animations := s1.animations ++ [animation] }
    let r :=
      if s2.animations.length = 1 then setCurrentAnimationIndex s2 0 else (s2, [])
    (r.1, Event.preAnimationAdded addIndex :: r.2 ++ [Event.postAnimationAdded addIndex],
      name)

/-- `AnimationSystem::addAnimation(animation, index)`: refuses if the
animation is already present or the index invalid; otherwise emits
`preAnimationAdded(index)`, inserts, selects index 0 when the collection
became a singleton or shifts the current index up by one when
`index <= mCurrentAnimationIndex`, then emits `postAnimationAdded(index)`
and `animationCountChanged`. -/
def addAnimation (s : AnimationSystem) (animation : Animation) (index : Int) :
    AnimationSystem × List Event :=
  if s.animations.contains animation then (s, [])
  else if ¬ isValidIndexOrWarn s index then (s, [])
  else
    let s1 : AnimationSystem :=
      { s with animations := s.animations.insertIdx index.toNat animation }
    let r :=
      if s1.animations.length = 1 then setCurrentAnimationIndex s1 0
      else if index ≤ s.currentAnimationIndex then
        setCurrentAnimationIndex s1 (s.currentAnimationIndex + 1)
      else (s1, [])
    (r.1, Event.preAnimationAdded index :: r.2 ++
      [Event.postAnimationAdded index, Event.animationCountChanged])

/-- `AnimationSystem::takeAnimation(const QString &name)`: warns and
no-ops when no animation has that name; otherwise emits
`preAnimationRemoved(removedIndex)`, calls `setCurrentAnimationIndex(-1)`
when the collection is a singleton, calls
`setCurrentAnimationIndex(mCurrentAnimationIndex - 1)` when
`removedIndex <= mCurrentAnimationIndex`, erases the element, and emits
`postAnimationRemoved(removedIndex)` and `animationCountChanged`. -/
def takeAnimationByName (s : AnimationSystem) (name : String) :
    AnimationSystem × List Event :=
  match s.animations.findIdx? (fun a => a.name == name) with
  | none => (s, [])
  | some removedIndex =>
    let ri : Int := removedIndex
    let r1 :=
      if s.animations.length = 1 then setCurrentAnimationIndex s (-1) else (s, [])
    let r2 :=
      if ri ≤ r1.1.currentAnimationIndex then
        setCurrentAnimationIndex r1.1 (r1.1.currentAnimationIndex - 1)
      else (r1.1, [])
    let s3 : AnimationSystem :=
      { r2.1 with animations := r2.1.animations.eraseIdx removedIndex }
    (s3, Event.preAnimationRemoved ri :: r1.2 ++ r2.2 ++
      [Event.postAnimationRemoved ri, Event.animationCountChanged])

/-- Result of `AnimationSystem::animationAt`: a returned animation, a
returned null pointer, or an out-of-bounds `QVector::at` access (a Qt
assertion failure / undefined behaviour). -/
inductive AtResult where
  | nullPtr
  | anim (a : Animation)
  | outOfBounds
deriving DecidableEq, Repr

/-- `AnimationSystem::animationAt(index)`: warns and returns null when
`isValidIndexOrWarn` rejects the index, otherwise performs
`mAnimations.at(index)` — which is out of bounds when `index == size()`,
a value the validator accepts. -/
def animationAt (s : AnimationSystem) (index : Int) : AtResult :=
  if ¬ isValidIndexOrWarn s index then AtResult.nullPtr
  else
    match s.animations.get? index.toNat with
    | some a => AtResult.anim a
    | none => AtResult.outOfBounds

/-- `AnimationSystem::takeAnimation(int index)`: validates the index, then
emits `preAnimationRemoved(index)`, detaches the element with
`takeAt(index)` (out of bounds when `index == size()`; modelled by the
`Option` result), and emits `postAnimationRemoved(index)` and
`animationCountChanged`.  It never touches the current index. -/
def takeAnimationAt (s : AnimationSystem) (index : Int) :
    AnimationSystem × List Event × Option Animation :=
  if ¬ isValidIndexOrWarn s index then (s, [], none)
  else
    let a := s.animations.get? index.toNat
    let s1 : AnimationSystem :=
      { s with animations := s.animations.eraseIdx index.toNat }
    (s1, [Event.preAnimationRemoved index, Event.postAnimationRemoved index,
      Event.animationCountChanged], a)

/-- `AnimationSystem::reset`: clears the sequence, resets the playback
cursor (modelled from the spec: `AnimationPlayback::reset` is not in
`src/`; the spec says it returns the cursor to its initial — unbound —
state), and zeroes `mAnimationsCreated`.  `mCurrentAnimationIndex` is not
touched. -/
def reset (s : AnimationSystem) : AnimationSystem :=
  { s with animations := [], playback := none, animationsCreated := 0 }

/-- The structural notifications among the emitted events: everything but
`currentAnimationIndexChanged`. -/
def isStructuralEvent : Event → Bool
  | Event.currentAnimationIndexChanged => false
  | _ => true

/-- Filter a signal trace down to the structural notifications
(pre/post add, pre/post remove, count changed). -/
def structuralEvents (evs : List Event) : List Event :=
  evs.filter isStructuralEvent

/-- A concrete animation used to instantiate the universally quantified
theorems below on closed inputs. -/
def sampleAnimation : Animation :=
  { name := "X", fps := 1, frameCount := 1, frameX := 0, frameY := 0,
    frameWidth := 1, frameHeight := 1 }

/-- C10: for every state, `setCurrentAnimationIndex(-1)` is rejected by
`isValidIndexOrWarn` (since `-1 < 0`): the whole state — current index,
playback binding, sequence — is unchanged and no signal is emitted, so the
public setter offers no way to deselect. -/
theorem setCurrentAnimationIndex_neg_one_noop (s : AnimationSystem) :
    setCurrentAnimationIndex s (-1) = (s, []) := by
  simp [setCurrentAnimationIndex, isValidIndexOrWarn]

/-- C8 (code bug): `animationAt(0)` on the empty collection — an index
outside `[0, size-1]` — passes `isValidIndexOrWarn` (which only rejects
`index > size`, not `index ≥ size`) and performs the out-of-bounds
access `mAnimations.at(0)` instead of warning and returning null. -/
theorem animationAt_size_out_of_bounds :
    animationAt initialSystem 0 = AtResult.outOfBounds ∧
      isValidIndexOrWarn initialSystem 0 = true := by decide

/-- C9 (counterexample): after adding one animation (current index 0) and
calling `reset()`, the sequence is empty but the current index is still
`0`, not `-1` as the claim states. -/
theorem reset_does_not_clear_current_index :
    (reset (addNewAnimation initialSystem 8 8).1).animations = [] ∧
      (reset (addNewAnimation initialSystem 8 8).1).currentAnimationIndex = 0 ∧
      (reset (addNewAnimation initialSystem 8 8).1).currentAnimationIndex ≠ -1 := by
  decide

/-- C9 (amended): `reset()` empties the sequence, unbinds the playback
cursor, and zeroes `createdCount`, but leaves the current animation index
exactly as it was. -/
theorem reset_state (s : AnimationSystem) :
    reset s =
      { animations := [], currentAnimationIndex := s.currentAnimationIndex,
        playback := none, animationsCreated := 0 } := rfl

/-- C1 (code bug): from the initial state, `addNewAnimation` followed by
removing the sole animation by name leaves the current index at `0` while
the collection is empty — outside the documented range
`[-1, animations.size()-1] = {-1}` — because both internal
`setCurrentAnimationIndex(-1)` calls are rejected by the validator. -/
theorem take_sole_breaks_index_range :
    (takeAnimationByName (addNewAnimation initialSystem 8 8).1
        "Animation 1").1.animations.length = 0 ∧
      ¬ ((takeAnimationByName (addNewAnimation initialSystem 8 8).1
          "Animation 1").1.currentAnimationIndex ≤
        ((takeAnimationByName (addNewAnimation initialSystem 8 8).1
          "Animation 1").1.animations.length : Int) - 1) := by decide

/-- C2 (code bug): removing the only animation by name leaves the current
index at `0` instead of setting it to `-1`: the code's explicit
`setCurrentAnimationIndex(-1)` call (and the decrement to `-1`) are both
rejected by `isValidIndexOrWarn`, and `currentAnimation()` then reads the
empty sequence instead of returning none. -/
theorem take_sole_current_index_stays :
    (takeAnimationByName (addNewAnimation initialSystem 8 8).1
        "Animation 1").1.currentAnimationIndex = 0 ∧
      (takeAnimationByName (addNewAnimation initialSystem 8 8).1
        "Animation 1").1.currentAnimationIndex ≠ -1 := by decide

/-- C3 (counterexample): a successful `addNewAnimation` on the empty
collection changes the size from 0 to 1 yet emits no
`animationCountChanged` signal. -/
theorem addNewAnimation_missing_count_changed :
    (addNewAnimation initialSystem 8 8).1.animations.length ≠
        initialSystem.animations.length ∧
      Event.animationCountChanged ∉ (addNewAnimation initialSystem 8 8).2.1 := by
  decide

/-- C4 (counterexample): `addNewAnimation` on the empty collection emits
pre/post signals with payload `-1` (`size() - 1` computed before the
append), while the new animation ends up at position `0`, the prior size. -/
theorem addNewAnimation_payload_not_prior_size :
    (addNewAnimation initialSystem 8 8).2.1 =
        [Event.preAnimationAdded (-1), Event.currentAnimationIndexChanged,
          Event.postAnimationAdded (-1)] ∧
      (addNewAnimation initialSystem 8 8).1.animations.get? 0 ≠ none ∧
      ((-1 : Int) ≠ (initialSystem.animations.length : Int)) := by decide

/-- C6 (counterexample): reachable state where the claim fails.  Create
two animations, select index 1, remove "Animation 1": the removal path
rebinds the playback cursor before erasing, leaving it bound to the
removed animation.  Then `setCurrentAnimationIndex(0)` with the valid
index `0` returns early (index already current), so `currentAnimation()`
is the element at 0 but the playback cursor's bound animation is not. -/
theorem setCurrentAnimationIndex_stale_playback :
    isValidIndexOrWarn
        (takeAnimationByName
          (setCurrentAnimationIndex (addNewAnimation (addNewAnimation
            initialSystem 8 8).1 8 8).1 1).1 "Animation 1").1 0 = true ∧
      (setCurrentAnimationIndex
          (takeAnimationByName
            (setCurrentAnimationIndex (addNewAnimation (addNewAnimation
              initialSystem 8 8).1 8 8).1 1).1 "Animation 1").1 0).1.playback ≠
        (setCurrentAnimationIndex
          (takeAnimationByName
            (setCurrentAnimationIndex (addNewAnimation (addNewAnimation
              initialSystem 8 8).1 8 8).1 1).1 "Animation 1").1 0).1.animations.get? 0 := by
  decide

theorem isValidIndexOrWarn_iff (s : AnimationSystem) (i : Int) :
    isValidIndexOrWarn s i = true ↔ 0 ≤ i ∧ i ≤ (s.animations.length : Int) := by
  by_cases h : i < 0 ∨ i > (s.animations.length : Int) <;>
    simp [isValidIndexOrWarn, h] <;> omega

theorem structuralEvents_setCurrentAnimationIndex (s : AnimationSystem) (i : Int) :
    structuralEvents (setCurrentAnimationIndex s i).2 = [] := by
  unfold setCurrentAnimationIndex
  split
  · rfl
  · split
    · rfl
    · rfl

theorem setCurrentAnimationIndex_animations (s : AnimationSystem) (i : Int) :
    (setCurrentAnimationIndex s i).1.animations = s.animations := by
  unfold setCurrentAnimationIndex
  split
  · rfl
  · split
    · rfl
    · rfl

theorem setCurrentAnimationIndex_sets (s : AnimationSystem) (i : Int)
    (hv : isValidIndexOrWarn s i = true) :
    (setCurrentAnimationIndex s i).1.currentAnimationIndex = i := by
  unfold setCurrentAnimationIndex
  rw [hv]
  simp only [not_true_eq_false, if_false]
  split
  · next heq => simp [heq.symm]
  · rfl

/-- C7: removing a name that no animation carries is a no-op: the state
(count, current index, every element, playback) is returned unchanged and
no signal is emitted. -/
theorem takeAnimationByName_missing_noop (s : AnimationSystem) (name : String)
    (h : ∀ a ∈ s.animations, a.name ≠ name) :
    takeAnimationByName s name = (s, []) := by
  have hf : s.animations.findIdx? (fun a => a.name == name) = none := by
    rw [List.findIdx?_eq_none_iff]
    intro a ha
    simpa using h a ha
  unfold takeAnimationByName
  rw [hf]

/-- C7 witness: removing "Animation 2" from the singleton collection
holding only "Animation 1" changes nothing and emits nothing. -/
theorem takeAnimationByName_missing_noop_witness :
    takeAnimationByName (addNewAnimation initialSystem 8 8).1 "Animation 2" =
      ((addNewAnimation initialSystem 8 8).1, []) :=
  takeAnimationByName_missing_noop (addNewAnimation initialSystem 8 8).1
    "Animation 2" (by decide)

/-- C5: when `addAnimation(animation, index)` succeeds, the current index
becomes 0 if the collection was empty, is incremented by one if the
insertion position is at or before it, and is unchanged otherwise. -/
theorem addAnimation_current_index (s : AnimationSystem) (a : Animation) (index : Int)
    (hnew : a ∉ s.animations)
    (hvalid : isValidIndexOrWarn s index = true)
    (hlo : -1 ≤ s.currentAnimationIndex)
    (hhi : s.currentAnimationIndex ≤ (s.animations.length : Int) - 1) :
    (addAnimation s a index).1.currentAnimationIndex =
      if s.animations.length = 0 then 0
      else if index ≤ s.currentAnimationIndex then s.currentAnimationIndex + 1
      else s.currentAnimationIndex := by
  have hc : s.animations.contains a = false := by simpa using hnew
  have hrange := (isValidIndexOrWarn_iff s index).1 hvalid
  have htn : index.toNat ≤ s.animations.length := by omega
  have hlen : (s.animations.insertIdx index.toNat a).length = s.animations.length + 1 :=
    List.length_insertIdx _ _ htn
  unfold addAnimation
  rw [hc, hvalid]
  simp only [Bool.false_eq_true, not_true_eq_false, if_false]
  by_cases h0 : s.animations.length = 0
  · have h1 : (s.animations.insertIdx index.toNat a).length = 1 := by omega
    simp only [h1, if_pos rfl, h0]
    exact setCurrentAnimationIndex_sets _ 0
      ((isValidIndexOrWarn_iff _ 0).2 (by simp [hlen]; omega))
  · have h1 : (s.animations.insertIdx index.toNat a).length ≠ 1 := by omega
    simp only [h1, if_neg, h0, if_false]
    by_cases hle : index ≤ s.currentAnimationIndex
    · simp only [hle, if_pos]
      exact setCurrentAnimationIndex_sets _ _
        ((isValidIndexOrWarn_iff _ _).2 (by simp [hlen]; omega))
    · simp [hle]

/-- C5 witness: inserting a sample animation at index 0 of the empty
collection selects index 0. -/
theorem addAnimation_current_index_witness :
    (addAnimation initialSystem sampleAnimation 0).1.currentAnimationIndex =
      if initialSystem.animations.length = 0 then 0
      else if (0 : Int) ≤ initialSystem.currentAnimationIndex then
        initialSystem.currentAnimationIndex + 1
      else initialSystem.currentAnimationIndex :=
  addAnimation_current_index initialSystem sampleAnimation 0 (by decide)
    (by decide) (by decide) (by decide)

/-- C6 (amended): for every selectable index `i` (`0 ≤ i ≤ size-1`),
after `setCurrentAnimationIndex(i)` the element at `i` exists and
`currentAnimation()` returns it; and whenever `i` differs from the
previous current index, the playback cursor is rebound to that element
(when `i` is already current the call returns early and the playback
binding is left as it was). -/
theorem setCurrentAnimationIndex_selects (s : AnimationSystem) (i : Int)
    (h0 : 0 ≤ i) (h1 : i ≤ (s.animations.length : Int) - 1) :
    s.animations.get? i.toNat ≠ none ∧
      currentAnimation (setCurrentAnimationIndex s i).1 =
        s.animations.get? i.toNat ∧
      (i ≠ s.currentAnimationIndex →
        (setCurrentAnimationIndex s i).1.playback = s.animations.get? i.toNat) := by
  have hv : isValidIndexOrWarn s i = true :=
    (isValidIndexOrWarn_iff s i).2 (by omega)
  have hlt : i.toNat < s.animations.length := by omega
  refine ⟨by rw [List.get?_eq_getElem?]; simp [List.getElem?_eq_getElem hlt], ?_, ?_⟩
  · unfold setCurrentAnimationIndex
    rw [hv]
    simp only [not_true_eq_false, if_false]
    split
    · next heq =>
      unfold currentAnimation
      rw [← heq]
      have : ¬ (i = -1) := by omega
      simp [this]
    · unfold currentAnimation
      have : ¬ (i = -1) := by omega
      simp [this]
  · intro hne
    unfold setCurrentAnimationIndex
    rw [hv]
    simp only [not_true_eq_false, if_false]
    split
    · next heq => exact absurd heq hne
    · unfold currentAnimation
      have : ¬ (i = -1) := by omega
      simp [this]

/-- C6 witness: in the singleton collection, after selecting index 0,
`currentAnimation()` is the element at 0 and (had 0 not been current
already) the playback cursor would be bound to it. -/
theorem setCurrentAnimationIndex_selects_witness :
    (addNewAnimation initialSystem 8 8).1.animations.get? (Int.toNat 0) ≠ none ∧
      currentAnimation
          (setCurrentAnimationIndex (addNewAnimation initialSystem 8 8).1 0).1 =
        (addNewAnimation initialSystem 8 8).1.animations.get? (Int.toNat 0) ∧
      ((0 : Int) ≠ (addNewAnimation initialSystem 8 8).1.currentAnimationIndex →
        (setCurrentAnimationIndex (addNewAnimation initialSystem 8 8).1 0).1.playback =
          (addNewAnimation initialSystem 8 8).1.animations.get? (Int.toNat 0)) :=
  setCurrentAnimationIndex_selects (addNewAnimation initialSystem 8 8).1 0
    (by decide) (by decide)


theorem structuralEvents_cons_preAdded (i : Int) (l : List Event) :
    structuralEvents (Event.preAnimationAdded i :: l) =
      Event.preAnimationAdded i :: structuralEvents l := rfl

theorem structuralEvents_cons_preRemoved (i : Int) (l : List Event) :
    structuralEvents (Event.preAnimationRemoved i :: l) =
      Event.preAnimationRemoved i :: structuralEvents l := rfl

theorem structuralEvents_append (l1 l2 : List Event) :
    structuralEvents (l1 ++ l2) = structuralEvents l1 ++ structuralEvents l2 := by
  simp [structuralEvents, List.filter_append]

/-- C3 (amended): every successful structural mutation emits exactly one
pre/post notification pair with identical index payloads.  Insert
(`addAnimation`), remove-by-name and detach-by-index follow the pair with
`animationCountChanged`, but `addNewAnimation` emits no
`animationCountChanged` at all, even though the size changed. -/
theorem structural_mutation_notifications :
    (∀ (s : AnimationSystem) (a : Animation) (index : Int),
        a ∉ s.animations → isValidIndexOrWarn s index = true →
        structuralEvents (addAnimation s a index).2 =
          [Event.preAnimationAdded index, Event.postAnimationAdded index,
            Event.animationCountChanged]) ∧
    (∀ (s : AnimationSystem) (name : String) (k : Nat),
        s.animations.findIdx? (fun a => a.name == name) = some k →
        structuralEvents (takeAnimationByName s name).2 =
          [Event.preAnimationRemoved (k : Int), Event.postAnimationRemoved (k : Int),
            Event.animationCountChanged]) ∧
    (∀ (s : AnimationSystem) (index : Int),
        isValidIndexOrWarn s index = true →
        structuralEvents (takeAnimationAt s index).2.1 =
          [Event.preAnimationRemoved index, Event.postAnimationRemoved index,
            Event.animationCountChanged]) ∧
    (∀ (s : AnimationSystem) (w h : Int),
        (∀ a ∈ s.animations, a.name ≠ peekNextGeneratedName s) →
        structuralEvents (addNewAnimation s w h).2.1 =
          [Event.preAnimationAdded ((s.animations.length : Int) - 1),
            Event.postAnimationAdded ((s.animations.length : Int) - 1)]) := by
  refine ⟨?_, ?_, ?_, ?_⟩
  · intro s a index hnew hvalid
    have hc : s.animations.contains a = false := by simpa using hnew
    unfold addAnimation
    rw [hc, hvalid]
    simp only [Bool.false_eq_true, not_true_eq_false, if_false]
    split
    · rw [structuralEvents_append, structuralEvents_cons_preAdded,
        structuralEvents_setCurrentAnimationIndex]
      rfl
    · split
      · rw [structuralEvents_append, structuralEvents_cons_preAdded,
          structuralEvents_setCurrentAnimationIndex]
        rfl
      · rfl
  · intro s name k hfind
    unfold takeAnimationByName
    rw [hfind]
    simp only
    split
    · split
      · rw [structuralEvents_append, structuralEvents_append,
          structuralEvents_cons_preRemoved,
          structuralEvents_setCurrentAnimationIndex,
          structuralEvents_setCurrentAnimationIndex]
        rfl
      · rw [structuralEvents_append, structuralEvents_append,
          structuralEvents_cons_preRemoved,
          structuralEvents_setCurrentAnimationIndex]
        rfl
    · split
      · rw [structuralEvents_append, structuralEvents_append,
          structuralEvents_cons_preRemoved,
          structuralEvents_setCurrentAnimationIndex]
        rfl
      · rfl
  · intro s index hvalid
    unfold takeAnimationAt
    rw [hvalid]
    rfl
  · intro s w h hfresh
    have hname : (s.animations.any fun a => a.name == peekNextGeneratedName s) = false := by
      rw [List.any_eq_false]
      intro a ha
      simpa using hfresh a ha
    unfold addNewAnimation
    simp only [hname, Bool.false_eq_true, if_false]
    split
    all_goals
      rw [structuralEvents_append, structuralEvents_cons_preAdded]
      split
      · rw [structuralEvents_setCurrentAnimationIndex]
        rfl
      · rfl

/-- C3 witness: the protocol theorem instantiated on concrete mutations:
insert into the empty collection at 0, remove "Animation 1" from the
singleton, detach index 0 from the singleton, and generate into the empty
collection (payload `0 - 1 = -1`, no count-changed signal). -/
theorem structural_mutation_notifications_witness :
    structuralEvents (addAnimation initialSystem sampleAnimation 0).2 =
        [Event.preAnimationAdded 0, Event.postAnimationAdded 0,
          Event.animationCountChanged] ∧
      structuralEvents
          (takeAnimationByName (addNewAnimation initialSystem 8 8).1 "Animation 1").2 =
        [Event.preAnimationRemoved ((0 : Nat) : Int),
          Event.postAnimationRemoved ((0 : Nat) : Int), Event.animationCountChanged] ∧
      structuralEvents
          (takeAnimationAt (addNewAnimation initialSystem 8 8).1 0).2.1 =
        [Event.preAnimationRemoved 0, Event.postAnimationRemoved 0,
          Event.animationCountChanged] ∧
      structuralEvents (addNewAnimation initialSystem 8 8).2.1 =
        [Event.preAnimationAdded ((initialSystem.animations.length : Int) - 1),
          Event.postAnimationAdded ((initialSystem.animations.length : Int) - 1)] :=
  ⟨structural_mutation_notifications.1 initialSystem sampleAnimation 0
      (by decide) (by decide),
    structural_mutation_notifications.2.1 (addNewAnimation initialSystem 8 8).1
      "Animation 1" 0 (by decide),
    structural_mutation_notifications.2.2.1 (addNewAnimation initialSystem 8 8).1
      0 (by decide),
    structural_mutation_notifications.2.2.2 initialSystem 8 8 (by decide)⟩

/-- C4 (amended): when `addNewAnimation` succeeds, the index carried by
the `preAnimationAdded` (first signal) and `postAnimationAdded` (last
signal) notifications is the collection's size before the append minus
one — the prior last index — not the position the new animation occupies. -/
theorem addNewAnimation_payload_prior_last (s : AnimationSystem) (w h : Int)
    (hfresh : ∀ a ∈ s.animations, a.name ≠ peekNextGeneratedName s) :
    (addNewAnimation s w h).2.1.head? =
        some (Event.preAnimationAdded ((s.animations.length : Int) - 1)) ∧
      (addNewAnimation s w h).2.1.getLast? =
        some (Event.postAnimationAdded ((s.animations.length : Int) - 1)) := by
  have hname : (s.animations.any fun a => a.name == peekNextGeneratedName s) = false := by
    rw [List.any_eq_false]
    intro a ha
    simpa using hfresh a ha
  unfold addNewAnimation
  simp only [hname, Bool.false_eq_true, if_false]
  constructor
  · rfl
  · rw [List.getLast?_concat]

/-- C4 witness: adding the first generated animation to the empty
collection carries payload `-1` in its first and last signals. -/
theorem addNewAnimation_payload_prior_last_witness :
    (addNewAnimation initialSystem 8 8).2.1.head? =
        some (Event.preAnimationAdded ((initialSystem.animations.length : Int) - 1)) ∧
      (addNewAnimation initialSystem 8 8).2.1.getLast? =
        some (Event.postAnimationAdded ((initialSystem.animations.length : Int) - 1)) :=
  addNewAnimation_payload_prior_last initialSystem 8 8 (by decide)
